import Mathlib

/-!
Verification development for the Nitrogen repository (src/app.py).

The core under verification is the intent classification and routing engine
route_prompt (src/app.py lines 37-168).  The embedding below translates that
function and the fragment of Python regular-expression semantics its fixed
rule table actually uses:

  * patterns of the shape \b(w1|w2|...)\b where each wi is a literal
    (possibly containing spaces or hyphens),
  * the single two-group pattern \b(who|what|where|when)\s+(is|are|was|were|did|does)\b,
  * the single character-class pattern [\d\+\-\*\/\=\%\(\)]+, which re.search
    finds in a string exactly when some character of the string is in the class,
  * keyword tests, which are plain substring containment on the lowercased prompt.

Python's str.lower, \w and \s are modelled at ASCII granularity (the rule
table itself is pure ASCII).  Python dicts preserve insertion order, so the
score dictionary is modelled as an association list in rule declaration order.
The history update of the /prompt handler (src/app.py lines 354-355) is
modelled by updateHistory at the end of the definitions.
-/

/-- The closed set of agent identifiers, in rule table declaration order
(src/app.py lines 50-119 for the rules; the subscription map at lines 20-27
uses the same six names). -/
inductive Agent where
  | codex
  | perplexity
  | gemini
  | deepseek
  | gpai
  | chatgpt
deriving DecidableEq, Repr, Fintype

/-- ASCII lower-casing of one character, the model of Python str.lower
(src/app.py line 47) on the ASCII range. -/
def lowerChar (c : Char) : Char :=
  if h : 65 ≤ c.toNat ∧ c.toNat ≤ 90 then
    Char.ofNatAux (c.toNat + 32) (Or.inl (by omega))
  else c

/-- Model of Python's \w character test (ASCII range): letters, digits, underscore. -/
def isWordChar (c : Char) : Bool :=
  (97 ≤ c.toNat && c.toNat ≤ 122) || (65 ≤ c.toNat && c.toNat ≤ 90) ||
    (48 ≤ c.toNat && c.toNat ≤ 57) || c == '_'

/-- Model of Python's \s character test (ASCII range): space, tab, newline,
carriage return, vertical tab, form feed. -/
def isSpaceChar (c : Char) : Bool :=
  c == ' ' || c == '\t' || c == '\n' || c == '\r' || c.toNat == 11 || c.toNat == 12

/-- The character class [\d\+\-\*\/\=\%\(\)] of the gpai rule
(src/app.py line 102). -/
def isMathSym (c : Char) : Bool :=
  c.isDigit || c == '+' || c == '-' || c == '*' || c == '/' || c == '=' ||
    c == '%' || c == '(' || c == ')'

/-- Whether a character position counts as a word character for the purpose
of a \b word boundary; the position just outside the string counts as
non-word. -/
def optWord : Option Char → Bool
  | none => false
  | some c => isWordChar c

/-- A \b word boundary holds between two (possibly absent) adjacent
characters exactly when one side is a word character and the other is not. -/
def boundary (a b : Option Char) : Bool :=
  optWord a != optWord b

/-- Literal prefix test on character lists. -/
def leadsWith : List Char → List Char → Bool
  | [], _ => true
  | _ :: _, [] => false
  | a :: as, b :: bs => a == b && leadsWith as bs

/-- Substring containment on character lists, the model of the Python
expression keyword in prompt_lower (src/app.py line 134). -/
def subIn (needle : List Char) : List Char → Bool
  | [] => leadsWith needle []
  | c :: t => leadsWith needle (c :: t) || subIn needle t

/-- Runs a position predicate at every suffix of the string, carrying the
character just before the current position; this is the model of re.search
trying each start position (src/app.py line 129). -/
def scanAux (q : Option Char → List Char → Bool) : Option Char → List Char → Bool
  | prev, [] => q prev []
  | prev, c :: t => q prev (c :: t) || scanAux q (some c) t

/-- Match of one alternative of a \b(...)\b group at the current position:
word boundary before, the literal itself, word boundary after. -/
def literalAt (w : List Char) (prev : Option Char) (s : List Char) : Bool :=
  boundary prev s.head? && leadsWith w s && boundary w.getLast? (s.drop w.length).head?

/-- Match of one alternative of the second group of the who/what pattern at
the current position, including the trailing \b. -/
def groupTailAt (g2 : List (List Char)) (s : List Char) : Bool :=
  g2.any (fun w => leadsWith w s && boundary w.getLast? (s.drop w.length).head?)

/-- Match of \s+ followed by the second group: at least one whitespace
character, then (after any further whitespace) a second-group alternative. -/
def spacedTail (g2 : List (List Char)) : List Char → Bool
  | [] => false
  | c :: t => isSpaceChar c && (groupTailAt g2 t || spacedTail g2 t)

/-- Match of the two-group pattern \b(g1)\s+(g2)\b at the current position. -/
def pairAt (g1 g2 : List (List Char)) (prev : Option Char) (s : List Char) : Bool :=
  g1.any (fun w => boundary prev s.head? && leadsWith w s && spacedTail g2 (s.drop w.length))

/-- The three regular-expression shapes occurring in the rule table of
route_prompt (src/app.py lines 50-119). -/
inductive Pattern where
  | wordAlt (words : List String)
  | wordPair (g1 g2 : List String)
  | classPlus (cls : Char → Bool)

/-- Model of re.search pattern prompt_lower (src/app.py line 129): true
exactly when the pattern matches somewhere in the string.  A one-or-more
repetition of a character class matches somewhere exactly when some character
of the string belongs to the class. -/
def Pattern.search : Pattern → List Char → Bool
  | .wordAlt ws, s =>
      scanAux (fun prev t => ws.any (fun w => literalAt w.data prev t)) none s
  | .wordPair g1 g2, s =>
      scanAux (fun prev t => pairAt (g1.map String.data) (g2.map String.data) prev t) none s
  | .classPlus cls, s => s.any cls

/-- One entry of the classification rule table (src/app.py lines 50-119). -/
structure Rule where
  agent : Agent
  patterns : List Pattern
  keywords : List String
  reason : String

/-- The codex rule (src/app.py lines 52-62). -/
def codexRule : Rule :=
  { agent := Agent.codex
    patterns :=
      [ Pattern.wordAlt ["code", "program", "function", "script", "debug", "compile",
          "syntax", "api", "app", "software", "develop"],
        Pattern.wordAlt ["react", "vue", "angular", "django", "flask", "node", "express",
          "python", "java", "javascript", "html", "css"],
        Pattern.wordAlt ["algorithm", "data structure", "class", "object", "method",
          "variable", "loop", "array"],
        Pattern.wordAlt ["programming", "coding", "software development", "web dev"] ]
    keywords := ["write code", "fix bug", "create function", "program", "debug", "build app"]
    reason := "Programming/code request detected" }

/-- The perplexity rule (src/app.py lines 65-73). -/
def perplexityRule : Rule :=
  { agent := Agent.perplexity
    patterns :=
      [ Pattern.wordAlt ["link", "source", "reference", "citation", "article", "research",
          "paper", "find", "search", "google", "look up"],
        Pattern.wordAlt ["where can I", "find me", "search for", "give me sources",
          "list of resources"] ]
    keywords := ["sources", "references", "links", "citations", "research"]
    reason := "Source/link request detected" }

/-- The gemini rule (src/app.py lines 76-85). -/
def geminiRule : Rule :=
  { agent := Agent.gemini
    patterns :=
      [ Pattern.wordAlt ["fact", "history", "date", "location", "famous", "population",
          "culture", "definition", "meaning"],
        Pattern.wordPair ["who", "what", "where", "when"] ["is", "are", "was", "were",
          "did", "does"],
        Pattern.wordAlt ["factual", "knowledge", "google", "search", "information",
          "dictionary"] ]
    keywords := ["tell me about", "what is", "who is", "when did", "where is", "define"]
    reason := "Factual knowledge/lookup request detected" }

/-- The deepseek rule (src/app.py lines 88-96). -/
def deepseekRule : Rule :=
  { agent := Agent.deepseek
    patterns :=
      [ Pattern.wordAlt ["explain in detail", "comprehensive", "thorough", "in-depth",
          "elaborate", "detailed"],
        Pattern.wordAlt ["long form", "essay", "extensive", "complete guide",
          "full explanation"] ]
    keywords := ["explain thoroughly", "detailed analysis", "comprehensive guide", "in depth"]
    reason := "Long-form explanation requested" }

/-- The gpai rule (src/app.py lines 99-108). -/
def gpaiRule : Rule :=
  { agent := Agent.gpai
    patterns :=
      [ Pattern.classPlus isMathSym,
        Pattern.wordAlt ["calculate", "solve", "equation", "math", "algebra", "calculus",
          "geometry", "puzzle", "logic"],
        Pattern.wordAlt ["compute", "sum", "difference", "product", "quotient", "modulo",
          "derivative", "integral"] ]
    keywords := ["solve this", "calculate", "math problem", "equation", "formula"]
    reason := "Math/logic/puzzle request detected" }

/-- The chatgpt rule (src/app.py lines 111-118). -/
def chatgptRule : Rule :=
  { agent := Agent.chatgpt
    patterns :=
      [ Pattern.wordAlt ["opinion", "thoughts", "perspective", "general", "anyway",
          "basically", "overall"] ]
    keywords := []
    reason := "General knowledge/conversational query" }

/-- The rule table, in declaration order (src/app.py lines 50-119). -/
def classification_rules : List Rule :=
  [codexRule, perplexityRule, geminiRule, deepseekRule, gpaiRule, chatgptRule]

/-- The unique rule of an agent (the table declares exactly one rule per agent). -/
def ruleFor : Agent → Rule
  | Agent.codex => codexRule
  | Agent.perplexity => perplexityRule
  | Agent.gemini => geminiRule
  | Agent.deepseek => deepseekRule
  | Agent.gpai => gpaiRule
  | Agent.chatgpt => chatgptRule

/-- Score of one rule on the lowercased prompt: the two accumulation loops of
route_prompt (src/app.py lines 124-135), +3 per matching pattern and +5 per
contained keyword. -/
def ruleScore (rule : Rule) (prompt_lower : List Char) : Nat :=
  let patScore := rule.patterns.foldl
    (fun acc p => if p.search prompt_lower then acc + 3 else acc) 0
  rule.keywords.foldl
    (fun acc k => if subIn k.data prompt_lower then acc + 5 else acc) patScore

/-- The score table after both loops and the chatgpt baseline bonus
(src/app.py lines 122-138), as an association list in declaration order
(Python dicts preserve insertion order). -/
def computeScores (prompt_lower : List Char) : List (Agent × Nat) :=
  (classification_rules.map (fun rule => (rule.agent, ruleScore rule prompt_lower))).map
    (fun pr => if pr.1 == Agent.chatgpt then (pr.1, pr.2 + 1) else pr)

/-- Model of max(scores.values()) (src/app.py line 141); Python's max on a
nonempty list of naturals agrees with a fold of Nat.max from 0. -/
def maxValue (scores : List (Agent × Nat)) : Nat :=
  scores.foldl (fun m pr => max m pr.2) 0

/-- A routing decision: agent identifier plus reason string. -/
structure Decision where
  agent : Agent
  reason : String
deriving DecidableEq, Repr

/-- The classification engine route_prompt (src/app.py lines 37-168):
lowercase the prompt, score every rule, add the chatgpt baseline, take the
maximum, return the defensive fallback if the maximum is zero, otherwise the
first agent (in declaration order) attaining the maximum, with its rule's
reason. -/
def route_prompt (prompt_text : String) : Decision :=
  let prompt_lower := prompt_text.data.map lowerChar
  let scores := computeScores prompt_lower
  let max_score := maxValue scores
  if max_score = 0 then
    { agent := Agent.chatgpt
      reason := "No specific intent detected - routing to general assistant" }
  else
    let top_agents := (scores.filter (fun pr => pr.2 == max_score)).map Prod.fst
    let selected_agent := top_agents.headD Agent.chatgpt
    match classification_rules.find? (fun rule => rule.agent == selected_agent) with
    | some rule => { agent := selected_agent, reason := rule.reason }
    | none => { agent := Agent.chatgpt, reason := "Default routing" }

/-- The spec's name for the engine: classify is route_prompt. -/
def classify (prompt : String) : Decision :=
  route_prompt prompt

/-- The lowercased character list of a prompt. -/
def lowerOf (p : String) : List Char :=
  p.data.map lowerChar

/-- The score table route_prompt computes for a prompt. -/
def scoresOf (p : String) : List (Agent × Nat) :=
  computeScores (lowerOf p)

/-- The maximum score route_prompt computes for a prompt. -/
def maxScoreOf (p : String) : Nat :=
  maxValue (scoresOf p)

/-- The score of one agent on a prompt, read off the computed score table. -/
def scoreOf (p : String) (a : Agent) : Nat :=
  (((scoresOf p).find? (fun pr => pr.1 == a)).map Prod.snd).getD 0

/-- The agents sharing the maximum score, in declaration order: the
top_agents list of route_prompt (src/app.py line 151). -/
def tiedAgents (p : String) : List Agent :=
  ((scoresOf p).filter (fun pr => pr.2 == maxScoreOf p)).map Prod.fst

/-- The history update of the /prompt handler (src/app.py lines 354-355):
insert the new entry at position 0, then keep the first 10 entries. -/
def updateHistory {α : Type} (history : List α) (entry : α) : List α :=
  (entry :: history).take 10

/-- The lowercased copy of a whole prompt, the model of prompt_text.lower
at string level (src/app.py line 47). -/
def lowerString (p : String) : String :=
  ⟨p.data.map lowerChar⟩

/-- The selection phase of route_prompt (src/app.py lines 150-168), applied
to the score table and maximum the engine computed. -/
def selPhase (p : String) : Decision :=
  let top_agents := ((scoresOf p).filter (fun pr => pr.2 == maxScoreOf p)).map Prod.fst
  let selected_agent := top_agents.headD Agent.chatgpt
  match classification_rules.find? (fun rule => rule.agent == selected_agent) with
  | some rule => { agent := selected_agent, reason := rule.reason }
  | none => { agent := Agent.chatgpt, reason := "Default routing" }

/-- Lowering a character in the ASCII uppercase range lands 32 higher. -/
theorem lowerChar_toNat_of (c : Char) (h : 65 ≤ c.toNat ∧ c.toNat ≤ 90) :
    (lowerChar c).toNat = c.toNat + 32 := by
  unfold lowerChar
  rw [dif_pos h]
  rfl

/-- ASCII lower-casing is idempotent. -/
theorem lowerChar_idem (c : Char) : lowerChar (lowerChar c) = lowerChar c := by
  by_cases h : 65 ≤ c.toNat ∧ c.toNat ≤ 90
  · have h2 := lowerChar_toNat_of c h
    unfold lowerChar at h2 ⊢
    rw [dif_pos h] at h2 ⊢
    rw [dif_neg]
    omega
  · unfold lowerChar
    rw [dif_neg h, dif_neg h]

/-- Lower-casing a list of characters twice is the same as once. -/
theorem map_lower_idem (l : List Char) :
    (l.map lowerChar).map lowerChar = l.map lowerChar := by
  induction l with
  | nil => rfl
  | cons c t ih => simp [List.map_cons, ih, lowerChar_idem]

/-- Two prompts with the same lowercased character list route identically. -/
theorem route_prompt_congr (p q : String)
    (h : p.data.map lowerChar = q.data.map lowerChar) :
    route_prompt p = route_prompt q := by
  unfold route_prompt
  rw [h]

set_option maxHeartbeats 1000000 in
/-- route_prompt is the defensive zero test followed by the selection phase. -/
theorem route_prompt_if (p : String) :
    route_prompt p =
      if maxScoreOf p = 0 then
        { agent := Agent.chatgpt
          reason := "No specific intent detected - routing to general assistant" }
      else selPhase p := rfl

/-- The score table in explicit association-list form, one entry per agent
in declaration order. -/
theorem scoresOf_eq (p : String) :
    scoresOf p = [(Agent.codex, scoreOf p Agent.codex),
      (Agent.perplexity, scoreOf p Agent.perplexity),
      (Agent.gemini, scoreOf p Agent.gemini),
      (Agent.deepseek, scoreOf p Agent.deepseek),
      (Agent.gpai, scoreOf p Agent.gpai),
      (Agent.chatgpt, scoreOf p Agent.chatgpt)] := rfl

/-- The maximum score in explicit form. -/
theorem maxScoreOf_eq (p : String) :
    maxScoreOf p =
      max (max (max (max (max (max 0
        (scoreOf p Agent.codex)) (scoreOf p Agent.perplexity)) (scoreOf p Agent.gemini))
        (scoreOf p Agent.deepseek)) (scoreOf p Agent.gpai)) (scoreOf p Agent.chatgpt) := rfl

/-- The chatgpt score is its rule score plus the baseline bonus of 1
(src/app.py line 138). -/
theorem scoreOf_chatgpt_eq (p : String) :
    scoreOf p Agent.chatgpt = ruleScore chatgptRule (lowerOf p) + 1 := rfl

/-- The maximum score is at least 1 on every prompt. -/
theorem maxScoreOf_pos (p : String) : 1 ≤ maxScoreOf p := by
  have h1 := scoreOf_chatgpt_eq p
  have h2 := maxScoreOf_eq p
  omega

/-- Every agent's score is bounded by the maximum score. -/
theorem score_le_max (p : String) (a : Agent) : scoreOf p a ≤ maxScoreOf p := by
  have h2 := maxScoreOf_eq p
  cases a <;> omega

/-- The maximum score is attained by some agent. -/
theorem max_attained (p : String) :
    maxScoreOf p = scoreOf p Agent.codex ∨ maxScoreOf p = scoreOf p Agent.perplexity ∨
    maxScoreOf p = scoreOf p Agent.gemini ∨ maxScoreOf p = scoreOf p Agent.deepseek ∨
    maxScoreOf p = scoreOf p Agent.gpai ∨ maxScoreOf p = scoreOf p Agent.chatgpt := by
  have h1 := scoreOf_chatgpt_eq p
  have h2 := maxScoreOf_eq p
  omega

/-- The selection phase picks the first agent, in declaration order, whose
score equals the maximum, and answers with that rule's reason. -/
theorem selPhase_char (p : String) :
    selPhase p =
      (if scoreOf p Agent.codex = maxScoreOf p then
        { agent := Agent.codex, reason := "Programming/code request detected" }
      else if scoreOf p Agent.perplexity = maxScoreOf p then
        { agent := Agent.perplexity, reason := "Source/link request detected" }
      else if scoreOf p Agent.gemini = maxScoreOf p then
        { agent := Agent.gemini, reason := "Factual knowledge/lookup request detected" }
      else if scoreOf p Agent.deepseek = maxScoreOf p then
        { agent := Agent.deepseek, reason := "Long-form explanation requested" }
      else if scoreOf p Agent.gpai = maxScoreOf p then
        { agent := Agent.gpai, reason := "Math/logic/puzzle request detected" }
      else
        { agent := Agent.chatgpt, reason := "General knowledge/conversational query" }) := by
  unfold selPhase
  rw [scoresOf_eq]
  by_cases h1 : scoreOf p Agent.codex = maxScoreOf p
  · rw [if_pos h1]
    simp only [List.filter_cons, h1, beq_self_eq_true, if_true]
    rfl
  · rw [if_neg h1]
    have e1 : (scoreOf p Agent.codex == maxScoreOf p) = false := beq_eq_false_iff_ne.mpr h1
    by_cases h2 : scoreOf p Agent.perplexity = maxScoreOf p
    · rw [if_pos h2]
      simp only [List.filter_cons, e1, if_false, h2, beq_self_eq_true, if_true]
      rfl
    · rw [if_neg h2]
      have e2 : (scoreOf p Agent.perplexity == maxScoreOf p) = false := beq_eq_false_iff_ne.mpr h2
      by_cases h3 : scoreOf p Agent.gemini = maxScoreOf p
      · rw [if_pos h3]
        simp only [List.filter_cons, e1, e2, if_false, h3, beq_self_eq_true, if_true]
        rfl
      · rw [if_neg h3]
        have e3 : (scoreOf p Agent.gemini == maxScoreOf p) = false := beq_eq_false_iff_ne.mpr h3
        by_cases h4 : scoreOf p Agent.deepseek = maxScoreOf p
        · rw [if_pos h4]
          simp only [List.filter_cons, e1, e2, e3, if_false, h4, beq_self_eq_true, if_true]
          rfl
        · rw [if_neg h4]
          have e4 : (scoreOf p Agent.deepseek == maxScoreOf p) = false := beq_eq_false_iff_ne.mpr h4
          by_cases h5 : scoreOf p Agent.gpai = maxScoreOf p
          · rw [if_pos h5]
            simp only [List.filter_cons, e1, e2, e3, e4, if_false, h5, beq_self_eq_true, if_true]
            rfl
          · rw [if_neg h5]
            have e5 : (scoreOf p Agent.gpai == maxScoreOf p) = false := beq_eq_false_iff_ne.mpr h5
            cases hb : (scoreOf p Agent.chatgpt == maxScoreOf p)
            · simp only [List.filter_cons, e1, e2, e3, e4, e5, hb, if_false]
              rfl
            · simp only [List.filter_cons, e1, e2, e3, e4, e5, hb, if_false, if_true]
              rfl

/-- route_prompt in fully explicit form: the defensive branch is skipped
(the maximum is positive) and the first agent attaining the maximum wins. -/
theorem route_prompt_char (p : String) :
    route_prompt p =
      (if scoreOf p Agent.codex = maxScoreOf p then
        { agent := Agent.codex, reason := "Programming/code request detected" }
      else if scoreOf p Agent.perplexity = maxScoreOf p then
        { agent := Agent.perplexity, reason := "Source/link request detected" }
      else if scoreOf p Agent.gemini = maxScoreOf p then
        { agent := Agent.gemini, reason := "Factual knowledge/lookup request detected" }
      else if scoreOf p Agent.deepseek = maxScoreOf p then
        { agent := Agent.deepseek, reason := "Long-form explanation requested" }
      else if scoreOf p Agent.gpai = maxScoreOf p then
        { agent := Agent.gpai, reason := "Math/logic/puzzle request detected" }
      else
        { agent := Agent.chatgpt, reason := "General knowledge/conversational query" }) := by
  have h1 := maxScoreOf_pos p
  rw [route_prompt_if, if_neg (by omega), selPhase_char]

/-- A fold that adds 3 for every element passing a test counts the passing
elements with weight 3 (the pattern loop of src/app.py lines 128-130). -/
theorem foldl_score_three {α : Type} (q : α → Bool) :
    ∀ (l : List α) (init : Nat),
      l.foldl (fun acc x => if q x then acc + 3 else acc) init =
        init + 3 * (l.filter q).length := by
  intro l
  induction l with
  | nil => intro init; simp
  | cons x t ih =>
    intro init
    by_cases hx : q x = true
    · simp only [List.foldl_cons, List.filter_cons, hx, if_true, ih, List.length_cons]
      omega
    · simp only [List.foldl_cons, List.filter_cons, hx, if_false, ih, Bool.false_eq_true]

/-- A fold that adds 5 for every element passing a test counts the passing
elements with weight 5 (the keyword loop of src/app.py lines 133-135). -/
theorem foldl_score_five {α : Type} (q : α → Bool) :
    ∀ (l : List α) (init : Nat),
      l.foldl (fun acc x => if q x then acc + 5 else acc) init =
        init + 5 * (l.filter q).length := by
  intro l
  induction l with
  | nil => intro init; simp
  | cons x t ih =>
    intro init
    by_cases hx : q x = true
    · simp only [List.foldl_cons, List.filter_cons, hx, if_true, ih, List.length_cons]
      omega
    · simp only [List.foldl_cons, List.filter_cons, hx, if_false, ih, Bool.false_eq_true]

/-- A rule's score is 3 per matching pattern plus 5 per contained keyword. -/
theorem ruleScore_eq (r : Rule) (pl : List Char) :
    ruleScore r pl =
      3 * ((r.patterns.filter (fun pt => pt.search pl)).length) +
      5 * ((r.keywords.filter (fun k => subIn k.data pl)).length) := by
  unfold ruleScore
  rw [foldl_score_three, foldl_score_five]
  omega

/-- The winning agent of classify is the head of the list of agents tied at
the maximum score, taken in declaration order. -/
theorem classify_agent_head (p : String) :
    (classify p).agent = (tiedAgents p).headD Agent.chatgpt := by
  unfold classify tiedAgents
  rw [route_prompt_char p, scoresOf_eq]
  by_cases h1 : scoreOf p Agent.codex = maxScoreOf p
  · rw [if_pos h1]
    simp only [List.filter_cons, h1, beq_self_eq_true, if_true]
    rfl
  · rw [if_neg h1]
    have e1 : (scoreOf p Agent.codex == maxScoreOf p) = false := beq_eq_false_iff_ne.mpr h1
    by_cases h2 : scoreOf p Agent.perplexity = maxScoreOf p
    · rw [if_pos h2]
      simp only [List.filter_cons, e1, if_false, h2, beq_self_eq_true, if_true]
      rfl
    · rw [if_neg h2]
      have e2 : (scoreOf p Agent.perplexity == maxScoreOf p) = false := beq_eq_false_iff_ne.mpr h2
      by_cases h3 : scoreOf p Agent.gemini = maxScoreOf p
      · rw [if_pos h3]
        simp only [List.filter_cons, e1, e2, if_false, h3, beq_self_eq_true, if_true]
        rfl
      · rw [if_neg h3]
        have e3 : (scoreOf p Agent.gemini == maxScoreOf p) = false := beq_eq_false_iff_ne.mpr h3
        by_cases h4 : scoreOf p Agent.deepseek = maxScoreOf p
        · rw [if_pos h4]
          simp only [List.filter_cons, e1, e2, e3, if_false, h4, beq_self_eq_true, if_true]
          rfl
        · rw [if_neg h4]
          have e4 : (scoreOf p Agent.deepseek == maxScoreOf p) = false := beq_eq_false_iff_ne.mpr h4
          by_cases h5 : scoreOf p Agent.gpai = maxScoreOf p
          · rw [if_pos h5]
            simp only [List.filter_cons, e1, e2, e3, e4, if_false, h5, beq_self_eq_true, if_true]
            rfl
          · rw [if_neg h5]
            have e5 : (scoreOf p Agent.gpai == maxScoreOf p) = false := beq_eq_false_iff_ne.mpr h5
            cases hb : (scoreOf p Agent.chatgpt == maxScoreOf p)
            · simp only [List.filter_cons, e1, e2, e3, e4, e5, hb, if_false]
              rfl
            · simp only [List.filter_cons, e1, e2, e3, e4, e5, hb, if_false, if_true]
              rfl

/-- C1 (counterexample): the claim that classify of the empty prompt answers
with the reason string of the defensive fallback branch is false on the code:
the chatgpt baseline bonus makes the maximum score 1, so the rule-table
reason of the chatgpt rule is returned instead. -/
theorem c1_counterexample :
    classify "" ≠
      { agent := Agent.chatgpt
        reason := "No specific intent detected - routing to general assistant" } := by
  decide

/-- C1 (amended): classify of the empty prompt returns the fallback agent
chatgpt, with the chatgpt rule's own reason string
"General knowledge/conversational query"; the defensive fallback reason is
not used because the baseline bonus makes the maximum score 1, not 0. -/
theorem c1_empty_prompt :
    classify "" =
      { agent := Agent.chatgpt, reason := "General knowledge/conversational query" } := by
  decide

/-- C2: whenever two or more agents share the maximum score, classify
returns the agent whose rule is declared earliest: the tied set is listed in
rule table declaration order (it is a sublist of
codex, perplexity, gemini, deepseek, gpai, chatgpt), and the winner is its
head.  classify is a pure function, so this winner is the same on every
call. -/
theorem c2_tie_break (p : String) (h : 2 ≤ (tiedAgents p).length) :
    List.Sublist (tiedAgents p)
      [Agent.codex, Agent.perplexity, Agent.gemini, Agent.deepseek,
        Agent.gpai, Agent.chatgpt] ∧
    (classify p).agent = (tiedAgents p).headD Agent.chatgpt := by
  constructor
  · have hs : List.Sublist ((scoresOf p).filter (fun pr => pr.2 == maxScoreOf p))
        (scoresOf p) := List.filter_sublist _
    have hm := hs.map Prod.fst
    rw [show (scoresOf p).map Prod.fst =
      [Agent.codex, Agent.perplexity, Agent.gemini, Agent.deepseek,
        Agent.gpai, Agent.chatgpt] from rfl] at hm
    exact hm
  · exact classify_agent_head p

/-- C2 witness: on the prompt "code link" the codex and perplexity rules tie
at the maximum score 3, and the earlier-declared codex wins. -/
theorem c2_tie_break_witness :
    2 ≤ (tiedAgents "code link").length ∧
    (List.Sublist (tiedAgents "code link")
      [Agent.codex, Agent.perplexity, Agent.gemini, Agent.deepseek,
        Agent.gpai, Agent.chatgpt] ∧
    (classify "code link").agent = (tiedAgents "code link").headD Agent.chatgpt) :=
  ⟨by decide, c2_tie_break "code link" (by decide)⟩

/-- C3: every agent's score equals 3 times the number of its rule's patterns
matching the lowercased prompt (each pattern counted once, by
match-or-no-match) plus 5 times the number of its rule's keywords contained
in the lowercased prompt, plus a baseline bonus of 1 for chatgpt only. -/
theorem c3_score_formula (p : String) (a : Agent) :
    scoreOf p a =
      3 * (((ruleFor a).patterns.filter (fun pt => pt.search (lowerOf p))).length) +
      5 * (((ruleFor a).keywords.filter (fun k => subIn k.data (lowerOf p))).length) +
      (if a = Agent.chatgpt then 1 else 0) := by
  cases a
  · rw [show scoreOf p Agent.codex = ruleScore codexRule (lowerOf p) from rfl, ruleScore_eq]
    simp [ruleFor]
  · rw [show scoreOf p Agent.perplexity = ruleScore perplexityRule (lowerOf p) from rfl,
      ruleScore_eq]
    simp [ruleFor]
  · rw [show scoreOf p Agent.gemini = ruleScore geminiRule (lowerOf p) from rfl, ruleScore_eq]
    simp [ruleFor]
  · rw [show scoreOf p Agent.deepseek = ruleScore deepseekRule (lowerOf p) from rfl,
      ruleScore_eq]
    simp [ruleFor]
  · rw [show scoreOf p Agent.gpai = ruleScore gpaiRule (lowerOf p) from rfl, ruleScore_eq]
    simp [ruleFor]
  · rw [show scoreOf p Agent.chatgpt = ruleScore chatgptRule (lowerOf p) + 1 from rfl,
      ruleScore_eq]
    simp [ruleFor]

/-- C4: on the prompt "please fix bug in my script" the codex rule wins with
score 8: exactly one codex pattern matches (the one containing script,
weight 3) and exactly one codex keyword is contained (namely "fix bug",
weight 5), and 8 strictly exceeds every other agent's score. -/
theorem c4_keyword_dominance :
    classify "please fix bug in my script" =
      { agent := Agent.codex, reason := "Programming/code request detected" } ∧
    subIn "fix bug".data (lowerOf "please fix bug in my script") = true ∧
    Pattern.search (Pattern.wordAlt ["code", "program", "function", "script", "debug",
      "compile", "syntax", "api", "app", "software", "develop"])
      (lowerOf "please fix bug in my script") = true ∧
    scoreOf "please fix bug in my script" Agent.codex = 8 ∧
    scoreOf "please fix bug in my script" Agent.perplexity < 8 ∧
    scoreOf "please fix bug in my script" Agent.gemini < 8 ∧
    scoreOf "please fix bug in my script" Agent.deepseek < 8 ∧
    scoreOf "please fix bug in my script" Agent.gpai < 8 ∧
    scoreOf "please fix bug in my script" Agent.chatgpt < 8 := by
  decide

/-- C5: on every prompt the maximum score is at least 1 after the chatgpt
baseline bonus, so the defensive branch for maximum score 0 is unreachable:
its guard never holds and its reason string is never returned by classify. -/
theorem c5_defensive_unreachable (p : String) :
    1 ≤ maxScoreOf p ∧
    (classify p).reason ≠ "No specific intent detected - routing to general assistant" := by
  refine ⟨maxScoreOf_pos p, ?_⟩
  unfold classify
  rw [route_prompt_char p]
  split_ifs <;> decide

/-- C6: classify of a prompt and classify of its lowercased copy are the
same decision; in particular classify "FIX BUG" and classify "fix bug" agree. -/
theorem c6_case_insensitive (p : String) :
    classify (lowerString p) = classify p ∧ classify "FIX BUG" = classify "fix bug" := by
  constructor
  · unfold classify
    apply route_prompt_congr
    exact map_lower_idem p.data
  · unfold classify
    apply route_prompt_congr
    decide

/-- C7: classify is total: on every string it returns a decision whose agent
is one of the six identifiers and whose reason is one of the fixed reason
strings of the program. -/
theorem c7_totality (p : String) :
    (classify p).agent ∈
      [Agent.codex, Agent.perplexity, Agent.gemini, Agent.deepseek,
        Agent.gpai, Agent.chatgpt] ∧
    (classify p).reason ∈
      ["Programming/code request detected", "Source/link request detected",
        "Factual knowledge/lookup request detected", "Long-form explanation requested",
        "Math/logic/puzzle request detected", "General knowledge/conversational query",
        "No specific intent detected - routing to general assistant", "Default routing"] := by
  unfold classify
  rw [route_prompt_char p]
  split_ifs <;> exact ⟨by decide, by decide⟩

/-- C8: classify is deterministic: its result depends only on the prompt;
equal prompts give equal decisions (the function reads no mutable state and
uses no randomness, being a pure function of its argument). -/
theorem c8_deterministic (p q : String) (h : p = q) : classify p = classify q := by
  rw [h]

/-- C8 witness: determinism applied at the concrete prompt "fix bug". -/
theorem c8_deterministic_witness : classify "fix bug" = classify "fix bug" :=
  c8_deterministic "fix bug" "fix bug" rfl

/-- C9: because the chatgpt rule is declared last and ties go to the first
agent with the maximum score, classify answers chatgpt exactly when the
chatgpt score (baseline included) strictly exceeds every other agent's
score. -/
theorem c9_chatgpt_strict_win (p : String) :
    (classify p).agent = Agent.chatgpt ↔
      (∀ a : Agent, a ≠ Agent.chatgpt → scoreOf p a < scoreOf p Agent.chatgpt) := by
  have l1 := score_le_max p Agent.codex
  have l2 := score_le_max p Agent.perplexity
  have l3 := score_le_max p Agent.gemini
  have l4 := score_le_max p Agent.deepseek
  have l5 := score_le_max p Agent.gpai
  have l6 := score_le_max p Agent.chatgpt
  have hat := max_attained p
  unfold classify
  rw [route_prompt_char p]
  constructor
  · intro hcg
    by_cases h1 : scoreOf p Agent.codex = maxScoreOf p
    · rw [if_pos h1] at hcg
      exact absurd hcg (by decide)
    rw [if_neg h1] at hcg
    by_cases h2 : scoreOf p Agent.perplexity = maxScoreOf p
    · rw [if_pos h2] at hcg
      exact absurd hcg (by decide)
    rw [if_neg h2] at hcg
    by_cases h3 : scoreOf p Agent.gemini = maxScoreOf p
    · rw [if_pos h3] at hcg
      exact absurd hcg (by decide)
    rw [if_neg h3] at hcg
    by_cases h4 : scoreOf p Agent.deepseek = maxScoreOf p
    · rw [if_pos h4] at hcg
      exact absurd hcg (by decide)
    rw [if_neg h4] at hcg
    by_cases h5 : scoreOf p Agent.gpai = maxScoreOf p
    · rw [if_pos h5] at hcg
      exact absurd hcg (by decide)
    intro a ha
    cases a
    · omega
    · omega
    · omega
    · omega
    · omega
    · exact absurd rfl ha
  · intro hstrict
    have k1 := hstrict Agent.codex (by decide)
    have k2 := hstrict Agent.perplexity (by decide)
    have k3 := hstrict Agent.gemini (by decide)
    have k4 := hstrict Agent.deepseek (by decide)
    have k5 := hstrict Agent.gpai (by decide)
    rw [if_neg (by omega), if_neg (by omega), if_neg (by omega), if_neg (by omega),
      if_neg (by omega)]

/-- C9 witness: on the empty prompt chatgpt's baseline score 1 strictly
exceeds every other agent's score 0, and classify answers chatgpt. -/
theorem c9_chatgpt_strict_win_witness : (classify "").agent = Agent.chatgpt :=
  (c9_chatgpt_strict_win "").mpr (by decide)

/-- C10: one history update of the /prompt handler keeps at most 10 entries,
puts the new entry at the front, and the rest is the previous history
truncated to 9; the classification engine takes only the prompt string as
input, so it neither reads nor writes the history. -/
theorem c10_history_bound {α : Type} (history : List α) (entry : α) :
    (updateHistory history entry).length ≤ 10 ∧
    (updateHistory history entry).head? = some entry ∧
    (updateHistory history entry).tail = history.take 9 := by
  refine ⟨?_, rfl, rfl⟩
  unfold updateHistory
  rw [List.length_take]
  omega
